import Mathlib

/-!
Shallow embedding of the bidirectional path tracer core of the Tungsten
renderer, translated from
`src/core/integrators/bidirectional_path_tracer/PathVertex.cpp`.

Modelling conventions:
* `float` arithmetic is embedded as exact rational arithmetic (`ℚ`);
  the float literal `1e-4f` is embedded as `1/10000`.
* `Vec3f` becomes `Vec3` (a triple of rationals) with componentwise
  multiplication and scalar division, matching Tungsten's `Vec3f`.
* `std::sqrt` (used inside edge construction, whose code lives in the
  header that is absent from `src/`) is passed around explicitly as a
  function parameter `msqrt : ℚ → ℚ`.
* The dependency-injected external collaborators (scene, tracer, BSDF,
  medium, emitter, camera) are structures of functions; fallible C++
  calls that fill an out-parameter and return `bool` become
  `Option`-returning functions.
* C++ out-parameters become explicit inputs plus returned values; a
  write through a null pointer (undefined behaviour) is modelled as the
  computation returning `none`.
-/

namespace Tungsten

/-- Three-component color / direction vector, embedding Tungsten's `Vec3f`
with exact rational components. -/
structure Vec3 where
  x : ℚ
  y : ℚ
  z : ℚ
deriving DecidableEq

namespace Vec3

instance : Zero Vec3 := ⟨⟨0, 0, 0⟩⟩

/-- Componentwise product, as Tungsten's `Vec3f::operator*`. -/
instance : Mul Vec3 := ⟨fun a b => ⟨a.x * b.x, a.y * b.y, a.z * b.z⟩⟩

instance : Add Vec3 := ⟨fun a b => ⟨a.x + b.x, a.y + b.y, a.z + b.z⟩⟩

instance : Sub Vec3 := ⟨fun a b => ⟨a.x - b.x, a.y - b.y, a.z - b.z⟩⟩

instance : Neg Vec3 := ⟨fun a => ⟨-a.x, -a.y, -a.z⟩⟩

/-- Division of a vector by a scalar, as Tungsten's `Vec3f::operator/(float)`. -/
instance : HDiv Vec3 ℚ Vec3 := ⟨fun a s => ⟨a.x / s, a.y / s, a.z / s⟩⟩

/-- Dot product. -/
def dot (a b : Vec3) : ℚ := a.x * b.x + a.y * b.y + a.z * b.z

/-- Squared euclidean length. -/
def lengthSq (a : Vec3) : ℚ := a.dot a

end Vec3

/-- Opaque handle for `SampleGenerator` / `UniformSampler` RNG services. -/
abbrev SamplerState := ℕ

/-- Pixel coordinate (`Vec2u`). -/
abbrev Pixel := ℕ × ℕ

/-- Modelled from the spec: a position-sampling record (`PositionSample`,
declared in a header absent from `src/`): sampled point with pdf, weight
and geometric normal. -/
structure PositionSample where
  p : Vec3
  weight : Vec3
  pdf : ℚ
  Ng : Vec3
deriving DecidableEq

/-- Modelled from the spec: a direction-sampling record (`DirectionSample`,
declared in a header absent from `src/`): sampled direction with pdf and
weight. Only the direction component is inspected by the code under
`src/`, so the external interfaces below take the direction directly. -/
structure DirectionSample where
  d : Vec3
  weight : Vec3
  pdf : ℚ
deriving DecidableEq

/-- Default-constructed direction sample (used by the `EmitterRecord(point)`
and `CameraRecord(pixel, point)` constructors before a direction is
sampled). -/
def DirectionSample.empty : DirectionSample := ⟨0, 0, 0⟩

/-- Ray with a parametric near/far window, modelling Tungsten's `Ray`.
The class is declared outside `src/`; the default window is modelled from
the spec ("ray carries a near-far window"). -/
structure Ray where
  pos : Vec3
  dir : Vec3
  nearT : ℚ
  farT : ℚ
  primaryRay : Bool

/-- Modelled from the spec: `Ray(pos, dir)` with the default parametric
window (the constants are irrelevant to every claim; the scene consumes
the ray abstractly). -/
def Ray.make (pos dir : Vec3) : Ray :=
  ⟨pos, dir, 1/10000, 10^30, false⟩

/-- Which storage the intersection-info pointer inside a surface scatter
event refers to: the local `SurfaceRecord` built inside `scatter`, the
surface record owned by the vertex the event is stored in, or some other
storage. This models C++ pointer identity for the re-homing assignment
`next._record.surface.event.info = &next._record.surface.info`. -/
inductive InfoPtr where
  | localRecord
  | ownRecord
  | external (id : ℕ)
deriving DecidableEq

/-- Modelled from the spec: the shading tangent frame stored in a surface
scatter event; only its world-to-local transform is used by the code
under `src/`. -/
structure TangentFrame where
  toLocal : Vec3 → Vec3

/-- A BSDF evaluation/pdf query: an incoming and an outgoing direction in
the local shading frame (the payload of `makeWarpedQuery`). -/
structure BsdfQuery where
  wi : Vec3
  wo : Vec3

/-- External BSDF interface (spec section 6). -/
structure Bsdf where
  pdf : BsdfQuery → ℚ
  eval : BsdfQuery → Vec3

/-- A phase-function query (incoming and outgoing world directions). -/
structure PhaseQuery where
  wi : Vec3
  wo : Vec3

/-- External medium / phase function interface (spec section 6). -/
structure Medium where
  phasePdf : PhaseQuery → ℚ
  phaseEval : PhaseQuery → Vec3

/-- External emitter interface (spec section 6). Fallible sampling calls
return `Option` instead of filling an out-parameter and returning `bool`. -/
structure Emitter where
  samplePosition : SamplerState → Option PositionSample
  sampleDirection : SamplerState → PositionSample → Option DirectionSample
  evalDirectionalEmission : PositionSample → Vec3 → Vec3
  directionalPdf : PositionSample → Vec3 → ℚ

/-- External camera interface (spec section 6). `evalDirection` returns
the splat weight and target pixel, or `none` when the direction falls
outside the sensor. -/
structure Camera where
  samplePosition : SamplerState → Option PositionSample
  sampleDirection : SamplerState → PositionSample → Pixel → Option DirectionSample
  evalDirection : SamplerState → PositionSample → Vec3 → Option (Vec3 × Pixel)
  directionPdf : PositionSample → Vec3 → ℚ

/-- Opaque payload of Tungsten's `IntersectionTemporary` (`record.data`);
never inspected by the code under `src/`. -/
structure IntersectionData where
  raw : ℕ

/-- Intersection info: hit point, geometric normal and the (non-owning)
BSDF handle of the hit surface; the fields read by the code under `src/`. -/
structure IntersectionInfo where
  p : Vec3
  Ng : Vec3
  bsdf : Bsdf

/-- Modelled from the spec: `SurfaceScatterEvent` (declared outside
`src/`): local-frame incoming/outgoing directions, shading frame, pdf,
throughput, and a non-owning pointer to an intersection-info record. -/
structure SurfaceScatterEvent where
  wi : Vec3
  wo : Vec3
  frame : TangentFrame
  pdf : ℚ
  throughput : Vec3
  info : InfoPtr

/-- Modelled from the spec: `makeWarpedQuery(wi, wo)` builds a BSDF query
for the given pair of local directions. -/
def SurfaceScatterEvent.makeWarpedQuery (_e : SurfaceScatterEvent) (wi wo : Vec3) : BsdfQuery :=
  ⟨wi, wo⟩

/-- Modelled from the spec: `makeFlippedQuery()` swaps the stored
incoming and outgoing directions ("the flipped query" of spec
section 4.C / testable property 4). -/
def SurfaceScatterEvent.makeFlippedQuery (e : SurfaceScatterEvent) : BsdfQuery :=
  ⟨e.wo, e.wi⟩

/-- `VolumeScatterEvent`: scattering position in media with
phase-function data. -/
structure VolumeScatterEvent where
  p : Vec3
  wi : Vec3
  wo : Vec3
  pdf : ℚ
  throughput : Vec3

/-- Modelled from the spec: phase-function query builder for a pair of
world directions. -/
def VolumeScatterEvent.makeWarpedQuery (_e : VolumeScatterEvent) (wi wo : Vec3) : PhaseQuery :=
  ⟨wi, wo⟩

/-- Modelled from the spec: flipped phase-function query. -/
def VolumeScatterEvent.makeFlippedQuery (e : VolumeScatterEvent) : PhaseQuery :=
  ⟨e.wo, e.wi⟩

/-- `EmitterRootRecord`: position-sampling record plus emitter-selection
pdf and weight. -/
structure EmitterRootRecord where
  point : PositionSample
  pdf : ℚ
  weight : Vec3

/-- `CameraRootRecord`: sensor position-sampling record plus target pixel. -/
structure CameraRootRecord where
  pixel : Pixel
  point : PositionSample

/-- `EmitterRecord`: committed emitter position plus direction sample. -/
structure EmitterRecord where
  point : PositionSample
  direction : DirectionSample

/-- The `EmitterRecord(point)` constructor. -/
def EmitterRecord.ofPoint (pt : PositionSample) : EmitterRecord :=
  ⟨pt, DirectionSample.empty⟩

/-- `CameraRecord`: committed sensor position, pixel and direction sample. -/
structure CameraRecord where
  pixel : Pixel
  point : PositionSample
  direction : DirectionSample

/-- The `CameraRecord(pixel, point)` constructor. -/
def CameraRecord.ofPoint (px : Pixel) (pt : PositionSample) : CameraRecord :=
  ⟨px, pt, DirectionSample.empty⟩

/-- `SurfaceRecord`: scatter event, opaque intersection payload, and
intersection info. -/
structure SurfaceRecord where
  event : SurfaceScatterEvent
  data : IntersectionData
  info : IntersectionInfo

/-- The tagged vertex storage: the discriminant (`PathVertex::type`), the
active union arm (`PathVertex::_record`), and the sampler handle bound at
construction from the kind (`PathVertex::sampler`), merged into one sum
type; the C++ invariant that tag, union arm and sampler arm agree is
enforced structurally. -/
inductive VertexRecord where
  | emitterRoot (e : Emitter) (r : EmitterRootRecord)
  | cameraRoot (c : Camera) (r : CameraRootRecord)
  | emitter (e : Emitter) (r : EmitterRecord)
  | camera (c : Camera) (r : CameraRecord)
  | surface (b : Bsdf) (r : SurfaceRecord)
  | volume (m : Medium) (r : VolumeScatterEvent)

/-- `PathVertex`: tagged record plus the shared fields `throughput`,
`pdfForward`, `pdfBackward`. -/
structure PathVertex where
  record : VertexRecord
  throughput : Vec3
  pdfForward : ℚ
  pdfBackward : ℚ

/-- `PathEdge`: unit direction from start to end, distance, and cached
squared distance. -/
structure PathEdge where
  d : Vec3
  r : ℚ
  rSq : ℚ
deriving DecidableEq

/-- `PathEdge::reverse()`: negate the direction. -/
def PathEdge.reverse (e : PathEdge) : PathEdge :=
  ⟨-e.d, e.r, e.rSq⟩

/-- External scene interface (spec section 6): `intersect` returns the
hit payload or `none`, `occluded` answers shadow-ray queries. -/
structure TraceableScene where
  intersect : Ray → Option (IntersectionData × IntersectionInfo)
  occluded : Ray → Bool

/-- `TraceState`: the per-sample mutable state threaded through
`scatter`. RNG, medium and medium-state handles are opaque. -/
structure TraceState where
  sampler : SamplerState
  supplementalSampler : SamplerState
  medium : ℕ
  bounce : ℕ
  ray : Ray
  wasSpecular : Bool
  mediumState : ℕ

/-- The fields `TraceBase::handleSurface` may write through its reference
parameters on success: the mutated scatter event / intersection payload /
intersection info, the continuation ray, medium bookkeeping, and the two
out-colors (which `PathVertex::scatter` discards). -/
structure HandleSurfaceResult where
  event : SurfaceScatterEvent
  data : IntersectionData
  info : IntersectionInfo
  ray : Ray
  medium : ℕ
  wasSpecular : Bool
  mediumState : ℕ
  scatterWeight : Vec3
  emission : Vec3

/-- Modelled from the spec: the tracer helper `TraceBase` (declared in
`TraceBase.hpp`, absent from `src/`). `handleSurface` performs BSDF
sampling, Russian roulette, emission capture and medium tracking and
returns `none` when the path is terminated; it does not touch the bounce
counter (the shared tail of `scatter` is what increments it).
`makeLocalScatterEvent` builds a scatter event at a hit. -/
structure TraceBase where
  handleSurface : SurfaceScatterEvent → IntersectionData → IntersectionInfo →
    SamplerState → SamplerState → ℕ → ℕ → Bool → Ray → Option HandleSurfaceResult
  makeLocalScatterEvent : IntersectionData → IntersectionInfo → Ray →
    SamplerState → SamplerState → SurfaceScatterEvent

/-- Modelled from the spec: `LightPath` (declared in the header absent
from `src/`): an indexed vertex/edge sequence; `vert i` is the i-th
vertex with index 0 the first endpoint after the root, and `edge i` the
edge from vertex i to vertex i+1 (spec section 3). The capacity bound is
immaterial to the claims and the accessors are modelled as total
functions. -/
structure LightPath where
  vert : ℕ → PathVertex
  edge : ℕ → PathEdge

namespace PathVertex

/-- `PathVertex::weight()` (PathVertex.cpp lines 5-23). -/
def weight (v : PathVertex) : Vec3 :=
  match v.record with
  | .emitterRoot _ r => r.point.weight * r.weight
  | .cameraRoot _ r => r.point.weight
  | .emitter _ r => r.direction.weight
  | .camera _ r => r.direction.weight
  | .surface _ r => r.event.throughput
  | .volume _ r => r.throughput

/-- `PathVertex::pdf()` (PathVertex.cpp lines 25-43). -/
def pdf (v : PathVertex) : ℚ :=
  match v.record with
  | .emitterRoot _ r => r.pdf * r.point.pdf
  | .cameraRoot _ r => r.point.pdf
  | .emitter _ r => r.direction.pdf
  | .camera _ r => r.direction.pdf
  | .surface _ r => r.event.pdf
  | .volume _ r => r.pdf

/-- `PathVertex::reversePdf()` (PathVertex.cpp lines 45-55): the flipped
directional pdf for scatter vertices, 0 for every other kind. -/
def reversePdf (v : PathVertex) : ℚ :=
  match v.record with
  | .surface b r => b.pdf r.event.makeFlippedQuery
  | .volume m r => m.phasePdf r.makeFlippedQuery
  | _ => 0

/-- `PathVertex::pos()` (PathVertex.cpp lines 204-221). -/
def pos (v : PathVertex) : Vec3 :=
  match v.record with
  | .emitterRoot _ _ => 0
  | .cameraRoot _ _ => 0
  | .emitter _ r => r.point.p
  | .camera _ r => r.point.p
  | .surface _ r => r.info.p
  | .volume _ r => r.p

/-- `PathVertex::cosineFactor(d)` (PathVertex.cpp lines 223-235):
`|Ng . d|` for kinds carrying a geometric normal, 1 otherwise. -/
def cosineFactor (v : PathVertex) (d : Vec3) : ℚ :=
  match v.record with
  | .emitter _ r => |r.point.Ng.dot d|
  | .camera _ r => |r.point.Ng.dot d|
  | .surface _ r => |r.info.Ng.dot d|
  | _ => 1

/-- `PathVertex::eval(d)` (PathVertex.cpp lines 143-162). -/
def eval (v : PathVertex) (d : Vec3) : Vec3 :=
  match v.record with
  | .emitterRoot _ _ => 0
  | .cameraRoot _ _ => 0
  | .emitter e r => e.evalDirectionalEmission r.point d
  | .camera _ _ => 0
  | .surface b r => b.eval (r.event.makeWarpedQuery r.event.wi (r.event.frame.toLocal d))
  | .volume m r => m.phaseEval (r.makeWarpedQuery r.wi d)

end PathVertex

/-- `PathEdge(a, b)` (spec section 4.B; the constructor lives in the
header absent from `src/`): `d = normalize(b.pos() - a.pos())`,
`r = |b.pos() - a.pos()|`, `rSq = r*r`. The float square root is the
explicit parameter `msqrt`. -/
def PathEdge.make (msqrt : ℚ → ℚ) (a b : PathVertex) : PathEdge :=
  let diff := b.pos - a.pos
  let r := msqrt diff.lengthSq
  ⟨diff / r, r, r * r⟩

/-- A pointer into one of the two scratch pdf arrays of
`LightPath::misWeight`, or a null pointer (the `s == 0` / `t == 0`
arguments of the `evalPdfs` calls). -/
inductive PdfPtr where
  | null
  | fw (i : ℕ)
  | bw (i : ℕ)

/-- The two scratch pdf arrays (`pdfForward` / `pdfBackward`) of
`LightPath::misWeight`, as total functions. -/
structure PdfStore where
  F : ℕ → ℚ
  B : ℕ → ℚ

/-- Write through a pdf pointer; writing through a null pointer is
undefined behaviour in the C++ and is modelled as `none`. -/
def PdfStore.write (st : PdfStore) : PdfPtr → ℚ → Option PdfStore
  | .null, _ => none
  | .fw i, x => some ⟨Function.update st.F i x, st.B⟩
  | .bw i, x => some ⟨st.F, Function.update st.B i x⟩

namespace PathVertex

/-- `PathVertex::evalPdfs` (PathVertex.cpp lines 164-202), writing its
two out-values through the given pointers. The `prev` / `prevEdge`
pointers are `Option`s; the surface and volume arms dereference them
(a null there, like a null out-pointer write, yields `none`). -/
def evalPdfs (v : PathVertex) (prev : Option PathVertex) (prevEdge : Option PathEdge)
    (next : PathVertex) (nextEdge : PathEdge) (forward backward : PdfPtr)
    (st : PdfStore) : Option PdfStore :=
  match v.record with
  | .emitterRoot _ r => st.write forward r.point.pdf
  | .cameraRoot _ r => st.write forward r.point.pdf
  | .emitter e r => do
      let st1 ← st.write forward
        (next.cosineFactor nextEdge.d / nextEdge.rSq *
          e.directionalPdf r.point nextEdge.d)
      st1.write backward 1
  | .camera c r => do
      let st1 ← st.write forward
        (next.cosineFactor nextEdge.d / nextEdge.rSq *
          c.directionPdf r.point nextEdge.d)
      st1.write backward 1
  | .surface b r => do
      let pe ← prevEdge
      let p ← prev
      let dPrev := r.event.frame.toLocal (-pe.d)
      let dNext := r.event.frame.toLocal nextEdge.d
      let st1 ← st.write forward
        (b.pdf (r.event.makeWarpedQuery dPrev dNext) *
          next.cosineFactor nextEdge.d / nextEdge.rSq)
      st1.write backward
        (b.pdf (r.event.makeWarpedQuery dNext dPrev) *
          p.cosineFactor pe.d / pe.rSq)
  | .volume m r => do
      let pe ← prevEdge
      let p ← prev
      let dPrev := -pe.d
      let dNext := nextEdge.d
      let st1 ← st.write forward
        (m.phasePdf (r.makeWarpedQuery dPrev dNext) *
          next.cosineFactor nextEdge.d / nextEdge.rSq)
      st1.write backward
        (m.phasePdf (r.makeWarpedQuery dNext dPrev) *
          p.cosineFactor pe.d / pe.rSq)

/-- The result of `PathVertex::scatter`: the returned boolean together
with the final values of every reference it may write (`*this`, `*prev`,
`state`, and the out-parameters `next` / `nextEdge`). -/
structure ScatterOut where
  success : Bool
  self : PathVertex
  prev : PathVertex
  state : TraceState
  next : PathVertex
  nextEdge : PathEdge

/-- The shared tracing tail of `PathVertex::scatter` (PathVertex.cpp
lines 126-140), reached by the emitter-, camera- and surface-vertex arms
after they sampled a continuation: intersect `state.ray`; on a miss
return `false` leaving the out-parameters untouched; on a hit build the
local surface record, commit `next` as a `SurfaceVertex` with
`throughput = this.throughput * this.weight()`, re-home the scatter
event's intersection-info pointer into `next`'s own record (line 135),
increment `state.bounce`, build `nextEdge = PathEdge(*this, next)` and
set `next.pdfForward = pdf * next.cosineFactor(nextEdge.d) / nextEdge.rSq`. -/
def scatterTail (msqrt : ℚ → ℚ) (scene : TraceableScene) (tracer : TraceBase)
    (self prev : PathVertex) (state : TraceState) (pdf : ℚ)
    (next0 : PathVertex) (nextEdge0 : PathEdge) : ScatterOut :=
  match scene.intersect state.ray with
  | none => ⟨false, self, prev, state, next0, nextEdge0⟩
  | some (data, info) =>
    let event := tracer.makeLocalScatterEvent data info state.ray
      state.sampler state.supplementalSampler
    let record : SurfaceRecord := ⟨{ event with info := InfoPtr.ownRecord }, data, info⟩
    let next1 : PathVertex :=
      { record := .surface info.bsdf record,
        throughput := self.throughput * self.weight,
        pdfForward := 0, pdfBackward := 0 }
    let state1 := { state with bounce := state.bounce + 1 }
    let nextEdge := PathEdge.make msqrt self next1
    let next2 := { next1 with pdfForward := pdf * next1.cosineFactor nextEdge.d / nextEdge.rSq }
    ⟨true, self, prev, state1, next2, nextEdge⟩

/-- `PathVertex::scatter` (PathVertex.cpp lines 57-141). The root arms
commit the endpoint successor directly; the emitter-, camera- and
surface-vertex arms sample a continuation, write `prev->pdfBackward`,
update `state.ray`, and fall through to `scatterTail`; the volume arm is
unimplemented and returns `false`. -/
def scatter (msqrt : ℚ → ℚ) (scene : TraceableScene) (tracer : TraceBase)
    (self prev : PathVertex) (prevEdge : PathEdge) (state : TraceState)
    (next0 : PathVertex) (nextEdge0 : PathEdge) : ScatterOut :=
  match self.record with
  | .emitterRoot e r =>
    match e.samplePosition state.sampler with
    | none => ⟨false, self, prev, state, next0, nextEdge0⟩
    | some pt =>
      let self1 : PathVertex := { self with record := .emitterRoot e { r with point := pt } }
      let next1 : PathVertex :=
        { record := .emitter e (EmitterRecord.ofPoint pt),
          throughput := self1.weight, pdfForward := 0, pdfBackward := 0 }
      let nextEdge := PathEdge.make msqrt self1 next1
      let next2 := { next1 with pdfForward := pt.pdf }
      ⟨true, self1, prev, state, next2, nextEdge⟩
  | .cameraRoot c r =>
    match c.samplePosition state.sampler with
    | none => ⟨false, self, prev, state, next0, nextEdge0⟩
    | some pt =>
      let self1 : PathVertex := { self with record := .cameraRoot c { r with point := pt } }
      let next1 : PathVertex :=
        { record := .camera c (CameraRecord.ofPoint r.pixel pt),
          throughput := self1.weight, pdfForward := 0, pdfBackward := 0 }
      let nextEdge := PathEdge.make msqrt self1 next1
      let next2 := { next1 with pdfForward := pt.pdf }
      ⟨true, self1, prev, state, next2, nextEdge⟩
  | .emitter e r =>
    match e.sampleDirection state.sampler r.point with
    | none => ⟨false, self, prev, state, next0, nextEdge0⟩
    | some dir =>
      let self1 : PathVertex := { self with record := .emitter e { r with direction := dir } }
      let prev1 := { prev with pdfBackward := (1 : ℚ) }
      let state1 := { state with ray := Ray.make r.point.p dir.d }
      scatterTail msqrt scene tracer self1 prev1 state1 dir.pdf next0 nextEdge0
  | .camera c r =>
    match c.sampleDirection state.sampler r.point r.pixel with
    | none => ⟨false, self, prev, state, next0, nextEdge0⟩
    | some dir =>
      let self1 : PathVertex := { self with record := .camera c { r with direction := dir } }
      let prev1 := { prev with pdfBackward := (1 : ℚ) }
      let state1 := { state with ray := { Ray.make r.point.p dir.d with primaryRay := true } }
      scatterTail msqrt scene tracer self1 prev1 state1 dir.pdf next0 nextEdge0
  | .surface b r =>
    match tracer.handleSurface r.event r.data r.info state.sampler state.supplementalSampler
        state.medium state.bounce false state.ray with
    | none => ⟨false, self, prev, state, next0, nextEdge0⟩
    | some hs =>
      let self1 : PathVertex := { self with record := .surface b ⟨hs.event, hs.data, hs.info⟩ }
      let state1 := { state with
        ray := hs.ray
        medium := hs.medium
        wasSpecular := hs.wasSpecular
        mediumState := hs.mediumState }
      let prev1 := { prev with
        pdfBackward := self1.reversePdf * prev.cosineFactor prevEdge.d / prevEdge.rSq }
      scatterTail msqrt scene tracer self1 prev1 state1 hs.event.pdf next0 nextEdge0
  | .volume _ _ =>
    ⟨false, self, prev, state, next0, nextEdge0⟩

end PathVertex

namespace LightPath

/-- The generic connection `LightPath::connect(scene, a, b)`
(PathVertex.cpp lines 237-244): shadow-test the edge over the parametric
window `[1e-4, r*(1 - 1e-4)]`; if occluded return zero, otherwise return
`a.throughput * a.eval(d) * b.eval(-d) * b.throughput / edge.rSq`. -/
def connect (msqrt : ℚ → ℚ) (scene : TraceableScene) (a b : PathVertex) : Vec3 :=
  let edge := PathEdge.make msqrt a b
  if scene.occluded ⟨a.pos, edge.d, 1/10000, edge.r * (1 - 1/10000), false⟩ then 0
  else a.throughput * a.eval edge.d * b.eval (-edge.d) * b.throughput / edge.rSq

/-- The camera-splat connection overload (PathVertex.cpp lines 246-260):
shadow test, then camera `evalDirection`; on success returns `true` with
the splat weight and target pixel, otherwise `false` with the `weight` /
`pixel` out-parameters as documented. `a` is addressed through its
camera union arm (`a._record.camera` / `a.sampler.camera`); calling it on
any other vertex kind reads an inactive union arm in the C++ and is
modelled by the catch-all arm. -/
def connectSplat (msqrt : ℚ → ℚ) (scene : TraceableScene) (a b : PathVertex)
    (sampler : SamplerState) (weight0 : Vec3) (pixel0 : Pixel) : Bool × Vec3 × Pixel :=
  let edge := PathEdge.make msqrt a b
  if scene.occluded ⟨a.pos, edge.d, 1/10000, edge.r * (1 - 1/10000), false⟩ then
    (false, weight0, pixel0)
  else
    match a.record with
    | .camera c r =>
      match c.evalDirection sampler r.point edge.d with
      | none => (false, weight0, pixel0)
      | some (splatWeight, px) =>
        (true, splatWeight * a.throughput * b.eval (-edge.d) * b.throughput / edge.rSq, px)
    | _ => (false, weight0, pixel0)

/-- The first accumulation loop of `LightPath::misWeight`
(PathVertex.cpp lines 289-292), iterated `t` times starting at `i = s`:
`pi *= pdfForward[i+1] / pdfBackward[i+1]; weight += pi`. Returns the
final `(pi, accumulated weight contribution)`. -/
def misLoop1 (F B : ℕ → ℚ) (s : ℕ) : ℕ → ℚ × ℚ
  | 0 => (1, 0)
  | t + 1 =>
    let acc := misLoop1 F B s t
    let pi2 := acc.1 * (F (s + t + 1) / B (s + t + 1))
    (pi2, acc.2 + pi2)

/-- The second accumulation loop of `LightPath::misWeight`
(PathVertex.cpp lines 293-297), iterated from `i = s - 1` down to
`i = 1` (so `k` iterations run from a start value `s`, the k-th using
index `s - k`): `pi *= pdfBackward[i+1] / pdfForward[i+1]; weight += pi`. -/
def misLoop2 (F B : ℕ → ℚ) (s : ℕ) : ℕ → ℚ × ℚ
  | 0 => (1, 0)
  | k + 1 =>
    let acc := misLoop2 F B s k
    let pi2 := acc.1 * (B (s - k) / F (s - k))
    (pi2, acc.2 + pi2)

/-- The accumulation core of `LightPath::misWeight` (PathVertex.cpp
lines 287-299): `weight = 1` plus both loop contributions (the second
loop runs `s - 1` times, covering `i = s-1 … 1`), returning `1/weight`. -/
def misCore (F B : ℕ → ℚ) (s t : ℕ) : ℚ :=
  1 / (1 + (misLoop1 F B s t).2 + (misLoop2 F B s (s - 1)).2)

/-- The scratch-array setup of `LightPath::misWeight` (PathVertex.cpp
lines 264-285): fill positions `0..s` from the emitter path, positions
`n-1 .. n-1-t` from the camera path with forward/backward swapped, then
overwrite the connection-adjacent slots through the two `evalPdfs`
calls, whose `prev` / out-pointer arguments are null when `s == 0`
(resp. `t == 0`). `none` means a null pointer was dereferenced. -/
def misArrays (msqrt : ℚ → ℚ) (camera emitter : LightPath) (s t : ℕ) : Option PdfStore :=
  let n := s + t + 2
  let F0 : ℕ → ℚ := fun i =>
    if i ≤ s then (emitter.vert i).pdfForward else (camera.vert (n - 1 - i)).pdfBackward
  let B0 : ℕ → ℚ := fun i =>
    if i ≤ s then (emitter.vert i).pdfBackward else (camera.vert (n - 1 - i)).pdfForward
  let edge := PathEdge.make msqrt (emitter.vert s) (camera.vert t)
  do
    let st1 ← (emitter.vert s).evalPdfs
      (if s = 0 then none else some (emitter.vert (s - 1)))
      (if s = 0 then none else some (emitter.edge (s - 1)))
      (camera.vert t) edge
      (PdfPtr.fw (s + 1))
      (if s = 0 then PdfPtr.null else PdfPtr.bw (s - 1))
      ⟨F0, B0⟩
    (camera.vert t).evalPdfs
      (if t = 0 then none else some (camera.vert (t - 1)))
      (if t = 0 then none else some (camera.edge (t - 1)))
      (emitter.vert s) edge.reverse
      (PdfPtr.bw s)
      (if t = 0 then PdfPtr.null else PdfPtr.fw (s + 2))
      st1

/-- `LightPath::misWeight(camera, emitter, s, t)` (PathVertex.cpp lines
262-300): build the scratch pdf arrays, then run the two accumulation
loops and return `1/weight`; `none` models the undefined behaviour of a
null-pointer write inside the `evalPdfs` calls. -/
def misWeight (msqrt : ℚ → ℚ) (camera emitter : LightPath) (s t : ℕ) : Option ℚ :=
  (misArrays msqrt camera emitter s t).map fun st => misCore st.F st.B s t

end LightPath

/-- The relative full-path density of the sampling strategy that builds
`k` emitter-side vertices, expressed from the scratch arrays of
`misWeight`: `pdfProd F B k = ∏ j ∈ [2, k), F j / B j`, so that
consecutive strategies satisfy
`pdfProd (k+1) / pdfProd k = F k / B k` — the ratio the two accumulation
loops multiply in. Normalized so `pdfProd F B 2 = 1`. -/
def pdfProd (F B : ℕ → ℚ) (k : ℕ) : ℚ :=
  ∏ j ∈ Finset.Ico 2 k, (F j / B j)

section ConcreteData

/-!  Concrete data used to evaluate the embedded operations: a
five-vertex light transport path `v i` at position `(i, 0, 0)` for
`i = 0` (emitter endpoint), `1, 2, 3` (surfaces) and `4` (camera
endpoint), with every geometric normal `(1, 0, 0)`, so that every edge
has `r = rSq = 1` and every cosine factor is `1`, and with every
sampling pdf (stored, BSDF, emitter-directional, camera-directional)
equal to `1`.  The emitter path walks the vertices left to right, the
camera path right to left. -/

/-- The x-axis unit vector, geometric normal of every concrete vertex. -/
def exAxis : Vec3 := ⟨1, 0, 0⟩

/-- A point on the x-axis. -/
def posX (q : ℚ) : Vec3 := ⟨q, 0, 0⟩

/-- The all-ones color. -/
def one3 : Vec3 := ⟨1, 1, 1⟩

/-- A BSDF whose pdf is identically 1 and whose value is identically the
unit color. -/
def unitBsdf : Bsdf := ⟨fun _ => 1, fun _ => one3⟩

/-- An emitter with unit directional pdf and emission (its sampling
entry points are unused by the concrete evaluations that go through
`misWeight` / `connect`). -/
def unitEmitter : Emitter :=
  ⟨fun _ => none, fun _ _ => none, fun _ _ => one3, fun _ _ => 1⟩

/-- A camera with unit direction pdf whose `evalDirection` always
answers with the unit splat weight and pixel `(0, 0)`. -/
def unitCamera : Camera :=
  ⟨fun _ => none, fun _ _ _ => none, fun _ _ _ => some (one3, (0, 0)), fun _ _ => 1⟩

/-- Position sample at `(q, 0, 0)` with unit weight and pdf. -/
def psampleAt (q : ℚ) : PositionSample := ⟨posX q, one3, 1, exAxis⟩

/-- A surface scatter event with identity shading frame, unit pdf and
unit throughput. -/
def surfEventX : SurfaceScatterEvent :=
  ⟨⟨0, 0, 1⟩, ⟨0, 0, 1⟩, ⟨fun v => v⟩, 1, one3, InfoPtr.ownRecord⟩

/-- Concrete surface vertex at `(q, 0, 0)` with unit throughput and unit
stored pdfs. -/
def surfVAt (q : ℚ) : PathVertex :=
  ⟨.surface unitBsdf ⟨surfEventX, ⟨0⟩, ⟨posX q, exAxis, unitBsdf⟩⟩, one3, 1, 1⟩

/-- Concrete emitter-endpoint vertex at the origin. -/
def emitV : PathVertex :=
  ⟨.emitter unitEmitter ⟨psampleAt 0, ⟨exAxis, one3, 1⟩⟩, one3, 1, 1⟩

/-- Concrete camera-endpoint vertex at `(4, 0, 0)`. -/
def camV : PathVertex :=
  ⟨.camera unitCamera ⟨(0, 0), psampleAt 4, ⟨⟨-1, 0, 0⟩, one3, 1⟩⟩, one3, 1, 1⟩

/-- The emitter path of the concrete five-vertex transport path:
vertex `i` of the combined path at index `i`, edges pointing `+x`. -/
def cexEmitterPath : LightPath :=
  ⟨fun i => if i = 0 then emitV else surfVAt i, fun _ => ⟨exAxis, 1, 1⟩⟩

/-- The camera path of the concrete five-vertex transport path: vertex
`4 - i` of the combined path at index `i`, edges pointing `-x`. -/
def cexCameraPath : LightPath :=
  ⟨fun i => if i = 0 then camV else surfVAt ((4 - i : ℕ) : ℚ), fun _ => ⟨⟨-1, 0, 0⟩, 1, 1⟩⟩

/-- Square-root stand-in for the concrete evaluations; every distance it
is applied to equals 1, where it is exact. -/
def sq1 : ℚ → ℚ := fun _ => 1

/-- A scene with no occluders whose `intersect` always hits a fixed
concrete surface at `(1, 0, 0)`. -/
def hitScene : TraceableScene :=
  ⟨fun _ => some (⟨0⟩, ⟨posX 1, exAxis, unitBsdf⟩), fun _ => false⟩

/-- A scene that never intersects and never occludes. -/
def emptyScene : TraceableScene :=
  ⟨fun _ => none, fun _ => false⟩

/-- A scene in which every shadow ray is occluded. -/
def occludeScene : TraceableScene := ⟨fun _ => none, fun _ => true⟩

/-- A tracer whose local-scatter-event builder returns the fixed
concrete event (with its info pointer on the local record, as the real
`makeLocalScatterEvent` leaves it) and whose `handleSurface` always
terminates the path. -/
def cexTracer : TraceBase :=
  ⟨fun _ _ _ _ _ _ _ _ _ => none,
   fun _ _ _ _ _ => { surfEventX with info := InfoPtr.localRecord }⟩

/-- A concrete trace state. -/
def cexState : TraceState :=
  ⟨0, 0, 0, 5, Ray.make (posX 0) exAxis, false, 0⟩

/-- A placeholder vertex used as the initial value of `scatter`'s
out-parameters. -/
def blankV : PathVertex := ⟨.volume ⟨fun _ => 0, fun _ => 0⟩ ⟨0, 0, 0, 0, 0⟩, 0, 0, 0⟩

/-- A placeholder edge used as the initial value of `scatter`'s
out-parameters. -/
def blankE : PathEdge := ⟨0, 0, 0⟩

end ConcreteData

theorem Vec3.sub_def (a b : Vec3) : a - b = ⟨a.x - b.x, a.y - b.y, a.z - b.z⟩ := rfl

theorem Vec3.mul_def (a b : Vec3) : a * b = ⟨a.x * b.x, a.y * b.y, a.z * b.z⟩ := rfl

theorem Vec3.neg_def (a : Vec3) : -a = ⟨-a.x, -a.y, -a.z⟩ := rfl

theorem Vec3.divQ_def (a : Vec3) (s : ℚ) : a / s = ⟨a.x / s, a.y / s, a.z / s⟩ := rfl

theorem Vec3.zero_def : (0 : Vec3) = ⟨0, 0, 0⟩ := rfl


/-! ### Characterization of the misWeight accumulation loops -/

namespace LightPath

theorem misLoop1_fst (F B : ℕ → ℚ) (s t : ℕ) :
    (misLoop1 F B s t).1 = ∏ j ∈ Finset.range t, (F (s + 1 + j) / B (s + 1 + j)) := by
  induction t with
  | zero => simp [misLoop1]
  | succ t ih =>
    rw [Finset.prod_range_succ, ← ih]
    show (misLoop1 F B s t).1 * (F (s + t + 1) / B (s + t + 1)) = _
    have h : s + t + 1 = s + 1 + t := by omega
    rw [h]

theorem misLoop1_snd (F B : ℕ → ℚ) (s t : ℕ) :
    (misLoop1 F B s t).2 =
      ∑ k ∈ Finset.range t, ∏ j ∈ Finset.range (k + 1), (F (s + 1 + j) / B (s + 1 + j)) := by
  induction t with
  | zero => simp [misLoop1]
  | succ t ih =>
    rw [Finset.sum_range_succ, ← ih, Finset.prod_range_succ, ← misLoop1_fst]
    show (misLoop1 F B s t).2 + (misLoop1 F B s t).1 * (F (s + t + 1) / B (s + t + 1)) = _
    have h : s + t + 1 = s + 1 + t := by omega
    rw [h]

theorem misLoop2_fst (F B : ℕ → ℚ) (s m : ℕ) :
    (misLoop2 F B s m).1 = ∏ j ∈ Finset.range m, (B (s - j) / F (s - j)) := by
  induction m with
  | zero => simp [misLoop2]
  | succ m ih =>
    rw [Finset.prod_range_succ, ← ih]
    rfl

theorem misLoop2_snd (F B : ℕ → ℚ) (s m : ℕ) :
    (misLoop2 F B s m).2 =
      ∑ k ∈ Finset.range m, ∏ j ∈ Finset.range (k + 1), (B (s - j) / F (s - j)) := by
  induction m with
  | zero => simp [misLoop2]
  | succ m ih =>
    rw [Finset.sum_range_succ, ← ih, Finset.prod_range_succ, ← misLoop2_fst]
    rfl

end LightPath


theorem pdfProd_pos (F B : ℕ → ℚ) (n k : ℕ) (hk : k ≤ n - 1)
    (hF : ∀ j, 2 ≤ j → j + 2 ≤ n → 0 < F j) (hB : ∀ j, 2 ≤ j → j + 2 ≤ n → 0 < B j) :
    0 < pdfProd F B k := by
  refine Finset.prod_pos fun j hj => ?_
  rw [Finset.mem_Ico] at hj
  exact div_pos (hF j hj.1 (by omega)) (hB j hj.1 (by omega))

theorem prod_range_ratio (F B : ℕ → ℚ) (a k : ℕ) (h2 : 2 ≤ a)
    (hq : pdfProd F B a ≠ 0) :
    ∏ j ∈ Finset.range k, (F (a + j) / B (a + j)) =
      pdfProd F B (a + k) / pdfProd F B a := by
  have hsplit := Finset.prod_Ico_consecutive (fun j => F j / B j) h2 (Nat.le_add_right a k)
  have hrange := Finset.prod_Ico_eq_prod_range (fun j => F j / B j) a (a + k)
  rw [Nat.add_sub_cancel_left] at hrange
  rw [eq_div_iff hq, mul_comm, ← hrange]
  exact hsplit

theorem prod_range_ratio_rev (F B : ℕ → ℚ) (s k : ℕ) (hk : k + 2 ≤ s)
    (hq : pdfProd F B (s - k) ≠ 0) :
    ∏ j ∈ Finset.range (k + 1), (B (s - j) / F (s - j)) =
      pdfProd F B (s - k) / pdfProd F B (s + 1) := by
  have h1 : ∏ j ∈ Finset.range (k + 1), (B (s - j) / F (s - j)) =
      ∏ j ∈ Finset.range (k + 1), (B (s - k + j) / F (s - k + j)) := by
    have := Finset.prod_range_reflect (fun j => B (s - k + j) / F (s - k + j)) (k + 1)
    rw [← this]
    refine Finset.prod_congr rfl fun j hj => ?_
    rw [Finset.mem_range] at hj
    have e : s - k + (k + 1 - 1 - j) = s - j := by omega
    rw [e]
  have h2 : ∏ j ∈ Finset.range (k + 1), (B (s - k + j) / F (s - k + j)) =
      ∏ j ∈ Finset.Ico (s - k) (s + 1), (B j / F j) := by
    have := Finset.prod_Ico_eq_prod_range (fun j => B j / F j) (s - k) (s + 1)
    have e : s + 1 - (s - k) = k + 1 := by omega
    rw [e] at this
    rw [this]
  have h3 : ∏ j ∈ Finset.Ico (s - k) (s + 1), (B j / F j) =
      (∏ j ∈ Finset.Ico (s - k) (s + 1), (F j / B j))⁻¹ := by
    rw [← Finset.prod_inv_distrib]
    exact Finset.prod_congr rfl fun j _ => (inv_div (F j) (B j)).symm
  have hsplit := Finset.prod_Ico_consecutive (fun j => F j / B j)
    (show 2 ≤ s - k by omega) (show s - k ≤ s + 1 by omega)
  have hsplit2 : pdfProd F B (s - k) * ∏ j ∈ Finset.Ico (s - k) (s + 1), (F j / B j) =
      pdfProd F B (s + 1) := hsplit
  rw [h1, h2, h3, ← hsplit2, ← div_div, div_self hq, one_div]



theorem misCore_eq (F B : ℕ → ℚ) (n s t : ℕ) (hs : 1 ≤ s) (hn : s + t + 2 = n)
    (hF : ∀ j, 2 ≤ j → j + 2 ≤ n → 0 < F j) (hB : ∀ j, 2 ≤ j → j + 2 ≤ n → 0 < B j) :
    LightPath.misCore F B s t =
      pdfProd F B (s + 1) / ∑ k ∈ Finset.Ico 2 n, pdfProd F B k := by
  have hqpos : ∀ k, k ≤ n - 1 → 0 < pdfProd F B k := fun k hk => pdfProd_pos F B n k hk hF hB
  have hq1 : pdfProd F B (s + 1) ≠ 0 := (hqpos (s + 1) (by omega)).ne'
  have hL1 : (LightPath.misLoop1 F B s t).2 =
      ∑ m ∈ Finset.Ico (s + 2) n, (pdfProd F B m / pdfProd F B (s + 1)) := by
    rw [LightPath.misLoop1_snd]
    have hrange := Finset.sum_Ico_eq_sum_range
      (fun m => pdfProd F B m / pdfProd F B (s + 1)) (s + 2) n
    have ht : n - (s + 2) = t := by omega
    rw [hrange, ht]
    refine Finset.sum_congr rfl fun k _ => ?_
    rw [prod_range_ratio F B (s + 1) (k + 1) (by omega) hq1]
    have e : s + 1 + (k + 1) = s + 2 + k := by omega
    rw [e]
  have hL2 : (LightPath.misLoop2 F B s (s - 1)).2 =
      ∑ m ∈ Finset.Ico 2 (s + 1), (pdfProd F B m / pdfProd F B (s + 1)) := by
    rw [LightPath.misLoop2_snd]
    have hstep : ∀ k ∈ Finset.range (s - 1),
        (∏ j ∈ Finset.range (k + 1), (B (s - j) / F (s - j))) =
          pdfProd F B (s - k) / pdfProd F B (s + 1) := by
      intro k hk
      rw [Finset.mem_range] at hk
      exact prod_range_ratio_rev F B s k (by omega) (hqpos (s - k) (by omega)).ne'
    rw [Finset.sum_congr rfl hstep]
    have hrefl := Finset.sum_range_reflect
      (fun j => pdfProd F B (2 + j) / pdfProd F B (s + 1)) (s - 1)
    have hrange := Finset.sum_Ico_eq_sum_range
      (fun m => pdfProd F B m / pdfProd F B (s + 1)) 2 (s + 1)
    have hs1 : s + 1 - 2 = s - 1 := by omega
    rw [hrange, hs1, ← hrefl]
    refine Finset.sum_congr rfl fun k hk => ?_
    rw [Finset.mem_range] at hk
    have e : 2 + (s - 1 - 1 - k) = s - k := by omega
    rw [e]
  rw [LightPath.misCore, hL1, hL2, ← Finset.sum_div, ← Finset.sum_div]
  have htop : ∑ m ∈ Finset.Ico 2 (s + 1), pdfProd F B m + pdfProd F B (s + 1) =
      ∑ m ∈ Finset.Ico 2 (s + 2), pdfProd F B m :=
    (Finset.sum_Ico_succ_top (by omega) _).symm
  have hcons : ∑ m ∈ Finset.Ico 2 (s + 2), pdfProd F B m +
      ∑ m ∈ Finset.Ico (s + 2) n, pdfProd F B m = ∑ m ∈ Finset.Ico 2 n, pdfProd F B m :=
    Finset.sum_Ico_consecutive _ (by omega) (by omega)
  have hcomb : 1 + (∑ m ∈ Finset.Ico (s + 2) n, pdfProd F B m) / pdfProd F B (s + 1) +
      (∑ m ∈ Finset.Ico 2 (s + 1), pdfProd F B m) / pdfProd F B (s + 1) =
      (∑ m ∈ Finset.Ico 2 n, pdfProd F B m) / pdfProd F B (s + 1) := by
    rw [← hcons, ← htop]
    field_simp
    ring
  rw [hcomb, one_div_div]



/-- C1 (amended): fix a full transport path of `n ≥ 3` vertices and
per-vertex forward/backward area pdfs `F`, `B` that are positive on the
indices the accumulation loops read (`2 … n-2`). The balance weights
computed by the accumulation core of `misWeight` sum to exactly 1 over
the decompositions with `s ≥ 1` (the hypothetical `t = 0` split
included). The claim as stated — summing the values `misWeight` returns
over the admissible decompositions, which include `s = 0` and exclude
`t = 0` — fails (see the counterexample): the `s = 0` call writes
through a null pointer, and the `i = 0` strategy is excluded from the
denominator of every `s ≥ 1` weight while the `t = 0` weight is never
returned. -/
theorem misCore_balance (F B : ℕ → ℚ) (n : ℕ) (hn : 3 ≤ n)
    (hF : ∀ j, 2 ≤ j → j + 2 ≤ n → 0 < F j) (hB : ∀ j, 2 ≤ j → j + 2 ≤ n → 0 < B j) :
    ∑ s ∈ Finset.Icc 1 (n - 2), LightPath.misCore F B s (n - 2 - s) = 1 := by
  have hqpos : ∀ k, k ≤ n - 1 → 0 < pdfProd F B k := fun k hk => pdfProd_pos F B n k hk hF hB
  have hstep : ∀ s ∈ Finset.Icc 1 (n - 2),
      LightPath.misCore F B s (n - 2 - s) =
        pdfProd F B (s + 1) / ∑ k ∈ Finset.Ico 2 n, pdfProd F B k := by
    intro s hs
    rw [Finset.mem_Icc] at hs
    exact misCore_eq F B n s (n - 2 - s) hs.1 (by omega) hF hB
  rw [Finset.sum_congr rfl hstep, ← Finset.sum_div]
  have hQ : 0 < ∑ k ∈ Finset.Ico 2 n, pdfProd F B k := by
    refine Finset.sum_pos (fun k hk => ?_) ⟨2, Finset.mem_Ico.mpr (by omega)⟩
    rw [Finset.mem_Ico] at hk
    exact hqpos k (by omega)
  have hreindex : ∑ s ∈ Finset.Icc 1 (n - 2), pdfProd F B (s + 1) =
      ∑ k ∈ Finset.Ico 2 n, pdfProd F B k := by
    have hIcc : Finset.Icc 1 (n - 2) = Finset.Ico 1 (n - 1) := by
      rw [show n - 1 = n - 2 + 1 by omega, Nat.Ico_succ_right]
    have hL := Finset.sum_Ico_eq_sum_range (fun s => pdfProd F B (s + 1)) 1 (n - 1)
    have hR := Finset.sum_Ico_eq_sum_range (fun k => pdfProd F B k) 2 n
    rw [hIcc, hL, hR, show n - 1 - 1 = n - 2 by omega]
    refine Finset.sum_congr rfl fun j _ => ?_
    have e : 1 + j + 1 = 2 + j := by omega
    rw [e]
  rw [hreindex, div_self hQ.ne']



/-! ### Claim theorems and witnesses -/


/-- C8: for every vertex whose kind is `VolumeVertex`, `scatter` returns
`false` (participating-media extension is unimplemented), regardless of
the scene, tracer, state, or neighbours — and leaves every reference
parameter untouched. -/
theorem scatter_volume_returns_false (msqrt : ℚ → ℚ) (scene : TraceableScene)
    (tracer : TraceBase) (m : Medium) (r : VolumeScatterEvent) (th : Vec3) (pf pb : ℚ)
    (prev : PathVertex) (prevEdge : PathEdge) (state : TraceState)
    (next0 : PathVertex) (nextEdge0 : PathEdge) :
    PathVertex.scatter msqrt scene tracer ⟨.volume m r, th, pf, pb⟩ prev prevEdge state
        next0 nextEdge0 =
      ⟨false, ⟨.volume m r, th, pf, pb⟩, prev, state, next0, nextEdge0⟩ := rfl

/-- C5: for a surface vertex with neighbours `prev` / `next` and edges
`prevEdge` / `nextEdge`, `evalPdfs` writes through the forward pointer
the BSDF pdf of the prev-to-next direction pair times
`next.cosineFactor(nextEdge.d) / nextEdge.rSq`, and through the backward
pointer the BSDF pdf of the next-to-prev pair times
`prev.cosineFactor(prevEdge.d) / prevEdge.rSq`: each output converts with
the cosine and `1/r²` at the receiving vertex of that transition. -/
theorem evalPdfs_surface_receiving_vertex (b : Bsdf) (r : SurfaceRecord) (th : Vec3)
    (pf pb : ℚ) (prev : PathVertex) (prevEdge : PathEdge) (next : PathVertex)
    (nextEdge : PathEdge) (i j : ℕ) (F B : ℕ → ℚ) :
    PathVertex.evalPdfs ⟨.surface b r, th, pf, pb⟩ (some prev) (some prevEdge) next nextEdge
        (.fw i) (.bw j) ⟨F, B⟩ =
      some ⟨Function.update F i
              (b.pdf (r.event.makeWarpedQuery (r.event.frame.toLocal (-prevEdge.d))
                  (r.event.frame.toLocal nextEdge.d)) *
                next.cosineFactor nextEdge.d / nextEdge.rSq),
            Function.update B j
              (b.pdf (r.event.makeWarpedQuery (r.event.frame.toLocal nextEdge.d)
                  (r.event.frame.toLocal (-prevEdge.d))) *
                prev.cosineFactor prevEdge.d / prevEdge.rSq)⟩ := rfl

/-- C4: the generic connection returns the zero color when the shadow
ray over the window `[1e-4, r·(1 − 1e-4)]` along the edge from `a` to
`b` is occluded, and otherwise returns
`a.throughput · a.eval(d) · b.eval(−d) · b.throughput / edge.rSq`. -/
theorem connect_occlusion_and_throughput (msqrt : ℚ → ℚ) (scene : TraceableScene)
    (a b : PathVertex) :
    (scene.occluded ⟨a.pos, (PathEdge.make msqrt a b).d, 1/10000,
        (PathEdge.make msqrt a b).r * (1 - 1/10000), false⟩ = true →
      LightPath.connect msqrt scene a b = 0) ∧
    (scene.occluded ⟨a.pos, (PathEdge.make msqrt a b).d, 1/10000,
        (PathEdge.make msqrt a b).r * (1 - 1/10000), false⟩ = false →
      LightPath.connect msqrt scene a b =
        a.throughput * a.eval (PathEdge.make msqrt a b).d *
          b.eval (-(PathEdge.make msqrt a b).d) * b.throughput /
          (PathEdge.make msqrt a b).rSq) := by
  constructor
  · intro h
    simp only [LightPath.connect]
    rw [if_pos h]
  · intro h
    simp only [LightPath.connect]
    rw [if_neg (by rw [h]; simp)]

/-- C9: after every successful pass through the shared tracing tail of
`scatter`, the intersection-info reference stored in the committed
vertex's scatter event refers to the vertex's own intersection record
(re-homed by PathVertex.cpp line 135), not to the local record built
during the call. -/
theorem scatterTail_info_rehomed (msqrt : ℚ → ℚ) (scene : TraceableScene)
    (tracer : TraceBase) (self prev : PathVertex) (state : TraceState) (pdf : ℚ)
    (next0 : PathVertex) (nextEdge0 : PathEdge) (data : IntersectionData)
    (info : IntersectionInfo) (h : scene.intersect state.ray = some (data, info)) :
    ∃ b r, (PathVertex.scatterTail msqrt scene tracer self prev state pdf
        next0 nextEdge0).next.record = .surface b r ∧
      r.event.info = InfoPtr.ownRecord := by
  refine ⟨info.bsdf,
    ⟨{ tracer.makeLocalScatterEvent data info state.ray state.sampler
        state.supplementalSampler with info := InfoPtr.ownRecord }, data, info⟩, ?_, rfl⟩
  simp [PathVertex.scatterTail, h]

/-- C3: for every vertex on which `scatter` reaches the shared tracing
tail: if the scene intersection fails, the tail returns `false` with
every reference parameter untouched; otherwise it returns `true` having
committed `next` as a surface vertex whose throughput is
`this.throughput * this.weight()`, incremented `state.bounce` by one,
set `nextEdge = PathEdge(this, next)`, and set `next.pdfForward` to the
sampling-step pdf times `next.cosineFactor(nextEdge.d) / nextEdge.rSq`. -/
theorem scatterTail_extends_path (msqrt : ℚ → ℚ) (scene : TraceableScene)
    (tracer : TraceBase) (self prev : PathVertex) (state : TraceState) (pdf : ℚ)
    (next0 : PathVertex) (nextEdge0 : PathEdge) :
    (scene.intersect state.ray = none →
      PathVertex.scatterTail msqrt scene tracer self prev state pdf next0 nextEdge0 =
        ⟨false, self, prev, state, next0, nextEdge0⟩) ∧
    (∀ data info res, scene.intersect state.ray = some (data, info) →
      PathVertex.scatterTail msqrt scene tracer self prev state pdf next0 nextEdge0 = res →
      res.success = true ∧
      (∃ b r, res.next.record = VertexRecord.surface b r) ∧
      res.next.throughput = self.throughput * self.weight ∧
      res.state.bounce = state.bounce + 1 ∧
      res.nextEdge = PathEdge.make msqrt self res.next ∧
      res.next.pdfForward = pdf * res.next.cosineFactor res.nextEdge.d / res.nextEdge.rSq) := by
  constructor
  · intro h
    simp [PathVertex.scatterTail, h]
  · intro data info res h hres
    subst hres
    unfold PathVertex.scatterTail
    rw [h]
    exact ⟨rfl, ⟨_, _, rfl⟩, rfl, rfl, rfl, rfl⟩



theorem scatterTail_fail {msqrt : ℚ → ℚ} {scene : TraceableScene} {tracer : TraceBase}
    {self prev : PathVertex} {state : TraceState} {pdf : ℚ}
    {next0 : PathVertex} {nextEdge0 : PathEdge}
    (h : (PathVertex.scatterTail msqrt scene tracer self prev state pdf
        next0 nextEdge0).success = false) :
    PathVertex.scatterTail msqrt scene tracer self prev state pdf next0 nextEdge0 =
      ⟨false, self, prev, state, next0, nextEdge0⟩ := by
  cases hi : scene.intersect state.ray with
  | none => simp [PathVertex.scatterTail, hi]
  | some v =>
    exfalso
    obtain ⟨data, info⟩ := v
    rw [PathVertex.scatterTail] at h
    rw [hi] at h
    exact Bool.noConfusion h

/-- C6: whenever `scatter` returns `false` (for any vertex kind), the
out-parameters `next` and `nextEdge` are not written, the only field of
`prev` that may have been modified is `prev.pdfBackward`, and
`state.bounce` is unchanged. -/
theorem scatter_failure_frame (msqrt : ℚ → ℚ) (scene : TraceableScene)
    (tracer : TraceBase) (self prev : PathVertex) (prevEdge : PathEdge)
    (state : TraceState) (next0 : PathVertex) (nextEdge0 : PathEdge)
    (h : (PathVertex.scatter msqrt scene tracer self prev prevEdge state
        next0 nextEdge0).success = false) :
    (PathVertex.scatter msqrt scene tracer self prev prevEdge state next0 nextEdge0).next
        = next0 ∧
    (PathVertex.scatter msqrt scene tracer self prev prevEdge state next0 nextEdge0).nextEdge
        = nextEdge0 ∧
    (PathVertex.scatter msqrt scene tracer self prev prevEdge state next0 nextEdge0).prev
        = { prev with pdfBackward :=
            (PathVertex.scatter msqrt scene tracer self prev prevEdge state
              next0 nextEdge0).prev.pdfBackward } ∧
    (PathVertex.scatter msqrt scene tracer self prev prevEdge state
        next0 nextEdge0).state.bounce = state.bounce := by
  obtain ⟨rec, th, pf, pb⟩ := self
  cases rec with
  | emitterRoot e r =>
    cases hs : e.samplePosition state.sampler with
    | none => refine ⟨?_, ?_, ?_, ?_⟩ <;> simp [PathVertex.scatter, hs]
    | some pt =>
      simp only [PathVertex.scatter, hs] at h
      exact Bool.noConfusion h
  | cameraRoot c r =>
    cases hs : c.samplePosition state.sampler with
    | none => refine ⟨?_, ?_, ?_, ?_⟩ <;> simp [PathVertex.scatter, hs]
    | some pt =>
      simp only [PathVertex.scatter, hs] at h
      exact Bool.noConfusion h
  | emitter e r =>
    cases hs : e.sampleDirection state.sampler r.point with
    | none => refine ⟨?_, ?_, ?_, ?_⟩ <;> simp [PathVertex.scatter, hs]
    | some dir =>
      simp only [PathVertex.scatter, hs] at h ⊢
      rw [scatterTail_fail h]
      exact ⟨rfl, rfl, rfl, rfl⟩
  | camera c r =>
    cases hs : c.sampleDirection state.sampler r.point r.pixel with
    | none => refine ⟨?_, ?_, ?_, ?_⟩ <;> simp [PathVertex.scatter, hs]
    | some dir =>
      simp only [PathVertex.scatter, hs] at h ⊢
      rw [scatterTail_fail h]
      exact ⟨rfl, rfl, rfl, rfl⟩
  | surface b r =>
    cases hs : tracer.handleSurface r.event r.data r.info state.sampler
        state.supplementalSampler state.medium state.bounce false state.ray with
    | none => refine ⟨?_, ?_, ?_, ?_⟩ <;> simp [PathVertex.scatter, hs]
    | some hsr =>
      simp only [PathVertex.scatter, hs] at h ⊢
      rw [scatterTail_fail h]
      exact ⟨rfl, rfl, rfl, rfl⟩
  | volume m r =>
    exact ⟨rfl, rfl, rfl, rfl⟩



/-- C7: the camera-splat connection returns `false` when the shadow ray
between `a` and `b` is occluded or when the camera's `evalDirection`
reports the direction outside the sensor, and the `weight` out-parameter
is written only when the function returns `true`. -/
theorem connectSplat_failure_modes (msqrt : ℚ → ℚ) (scene : TraceableScene)
    (a b : PathVertex) (sampler : SamplerState) (weight0 : Vec3) (pixel0 : Pixel)
    (c : Camera) (r : CameraRecord) (hrec : a.record = VertexRecord.camera c r) :
    (scene.occluded ⟨a.pos, (PathEdge.make msqrt a b).d, 1/10000,
        (PathEdge.make msqrt a b).r * (1 - 1/10000), false⟩ = true →
      (LightPath.connectSplat msqrt scene a b sampler weight0 pixel0).1 = false) ∧
    (c.evalDirection sampler r.point (PathEdge.make msqrt a b).d = none →
      (LightPath.connectSplat msqrt scene a b sampler weight0 pixel0).1 = false) ∧
    ((LightPath.connectSplat msqrt scene a b sampler weight0 pixel0).1 = false →
      (LightPath.connectSplat msqrt scene a b sampler weight0 pixel0).2.1 = weight0) := by
  obtain ⟨rec, th, pf, pb⟩ := a
  have hrec2 : rec = VertexRecord.camera c r := hrec
  subst hrec2
  by_cases hocc : scene.occluded
      ⟨PathVertex.pos ⟨VertexRecord.camera c r, th, pf, pb⟩,
        (PathEdge.make msqrt ⟨VertexRecord.camera c r, th, pf, pb⟩ b).d, 1/10000,
        (PathEdge.make msqrt ⟨VertexRecord.camera c r, th, pf, pb⟩ b).r * (1 - 1/10000),
        false⟩ = true
  · refine ⟨fun _ => ?_, fun _ => ?_, fun _ => ?_⟩ <;>
      · simp only [LightPath.connectSplat]
        rw [if_pos hocc]
  · have hoccf : scene.occluded
        ⟨PathVertex.pos ⟨VertexRecord.camera c r, th, pf, pb⟩,
          (PathEdge.make msqrt ⟨VertexRecord.camera c r, th, pf, pb⟩ b).d, 1/10000,
          (PathEdge.make msqrt ⟨VertexRecord.camera c r, th, pf, pb⟩ b).r * (1 - 1/10000),
          false⟩ = false := by
      cases hx : scene.occluded
          ⟨PathVertex.pos ⟨VertexRecord.camera c r, th, pf, pb⟩,
            (PathEdge.make msqrt ⟨VertexRecord.camera c r, th, pf, pb⟩ b).d, 1/10000,
            (PathEdge.make msqrt ⟨VertexRecord.camera c r, th, pf, pb⟩ b).r * (1 - 1/10000),
            false⟩
      · rfl
      · exact absurd hx hocc
    refine ⟨fun hcontra => absurd hcontra hocc, fun hev => ?_, fun hfail => ?_⟩
    · simp only [LightPath.connectSplat]
      rw [if_neg hocc]
      simp [hev]
    · simp only [LightPath.connectSplat] at hfail ⊢
      rw [if_neg hocc] at hfail ⊢
      cases hev : c.evalDirection sampler r.point
          (PathEdge.make msqrt ⟨VertexRecord.camera c r, th, pf, pb⟩ b).d with
      | none => simp [hev]
      | some p =>
        rw [hev] at hfail
        exact Bool.noConfusion hfail



theorem PdfStore.write_isSome (st : PdfStore) (p : PdfPtr) (x : ℚ)
    (hp : p ≠ PdfPtr.null) : (st.write p x).isSome = true := by
  cases p with
  | null => exact absurd rfl hp
  | fw i => rfl
  | bw i => rfl

theorem evalPdfs_isSome (v p : PathVertex) (pe : PathEdge) (next : PathVertex)
    (ne : PathEdge) (fp bp : PdfPtr) (st : PdfStore)
    (hf : fp ≠ PdfPtr.null) (hb : bp ≠ PdfPtr.null) :
    (PathVertex.evalPdfs v (some p) (some pe) next ne fp bp st).isSome = true := by
  obtain ⟨rec, th, pf, pb⟩ := v
  cases rec <;> cases fp <;> cases bp <;>
    first
      | exact absurd rfl hf
      | exact absurd rfl hb
      | rfl

/-- C10: `evalPdfs` on an emitter- or camera-endpoint vertex writes
`*backward = 1` unconditionally, while `misWeight` passes a null
backward pointer when `s = 0` (to the emitter-side call) or `t = 0` (to
the camera-side call); hence every `misWeight` call with `s ≥ 1` and
`t ≥ 1` writes only through non-null pointers into the scratch arrays
and produces a value, whereas a call with `s = 0` whose vertex
`emitter[0]` is an emitter-endpoint vertex — or with `t = 0` and
`camera[0]` a camera-endpoint vertex — writes through a null pointer
(modelled as `none`). -/
theorem misWeight_null_pointer (msqrt : ℚ → ℚ) (camera emitter : LightPath) (s t : ℕ) :
    (1 ≤ s → 1 ≤ t →
      (LightPath.misWeight msqrt camera emitter s t).isSome = true) ∧
    (∀ e r, (emitter.vert 0).record = VertexRecord.emitter e r →
      LightPath.misWeight msqrt camera emitter 0 t = none) ∧
    (∀ c r, (camera.vert 0).record = VertexRecord.camera c r →
      LightPath.misWeight msqrt camera emitter s 0 = none) := by
  refine ⟨?_, ?_, ?_⟩
  · intro hs ht
    have hs0 : ¬ (s = 0) := by omega
    have ht0 : ¬ (t = 0) := by omega
    simp only [LightPath.misWeight, LightPath.misArrays, if_neg hs0, if_neg ht0]
    obtain ⟨st1, h1⟩ := Option.isSome_iff_exists.mp
      (evalPdfs_isSome (emitter.vert s) (emitter.vert (s - 1)) (emitter.edge (s - 1))
        (camera.vert t) (PathEdge.make msqrt (emitter.vert s) (camera.vert t))
        (PdfPtr.fw (s + 1)) (PdfPtr.bw (s - 1)) _ (by simp) (by simp))
    rw [h1]
    obtain ⟨st2, h2⟩ := Option.isSome_iff_exists.mp
      (evalPdfs_isSome (camera.vert t) (camera.vert (t - 1)) (camera.edge (t - 1))
        (emitter.vert s) (PathEdge.make msqrt (emitter.vert s) (camera.vert t)).reverse
        (PdfPtr.bw s) (PdfPtr.fw (s + 2)) st1 (by simp) (by simp))
    simp [Option.bind, h2]
  · intro e r hrec
    simp [LightPath.misWeight, LightPath.misArrays, PathVertex.evalPdfs, hrec,
      PdfStore.write, Option.bind]
  · intro c r hrec
    have hnull : ∀ (prev : Option PathVertex) (pe : Option PathEdge) (next : PathVertex)
        (ne : PathEdge) (fp : PdfPtr) (st : PdfStore),
        PathVertex.evalPdfs (camera.vert 0) prev pe next ne fp PdfPtr.null st = none := by
      intro prev pe next ne fp st
      cases fp <;> simp [PathVertex.evalPdfs, hrec, PdfStore.write, Option.bind]
    have hbindnone : ∀ (x : Option PdfStore),
        (x.bind fun st1 => (none : Option PdfStore)) = none := by
      intro x; cases x <;> rfl
    simp [LightPath.misWeight, LightPath.misArrays, hnull, hbindnone]



/-- C2: the value returned by `misWeight(camera, emitter, s, t)` equals
`1/weight` where `weight` starts at 1, accumulates the running products
of `pdfForward[i+1]/pdfBackward[i+1]` for `i = s … s+t-1`, then the
running products of `pdfBackward[i+1]/pdfForward[i+1]` for
`i = s-1 … 1` (taken in the final scratch arrays); the emitter-side sum
has exactly `s - 1` terms, so the `i = 0` strategy contributes no term. -/
theorem misWeight_formula (msqrt : ℚ → ℚ) (camera emitter : LightPath) (s t : ℕ)
    (st : PdfStore) (h : LightPath.misArrays msqrt camera emitter s t = some st) :
    LightPath.misWeight msqrt camera emitter s t =
      some (1 / (1 +
        (∑ k ∈ Finset.range t,
          ∏ j ∈ Finset.range (k + 1), (st.F (s + 1 + j) / st.B (s + 1 + j))) +
        (∑ k ∈ Finset.range (s - 1),
          ∏ j ∈ Finset.range (k + 1), (st.B (s - j) / st.F (s - j))))) := by
  simp only [LightPath.misWeight, h, Option.map_some']
  rw [LightPath.misCore, LightPath.misLoop1_snd, LightPath.misLoop2_snd]

/-- C2 witness: on the concrete five-vertex path, decomposition
`(s, t) = (2, 1)`, the formula evaluates to `1/3`. -/
theorem misWeight_formula_witness :
    LightPath.misWeight sq1 cexCameraPath cexEmitterPath 2 1 = some (1/3) := by
  obtain ⟨st, hst⟩ : ∃ st, LightPath.misArrays sq1 cexCameraPath cexEmitterPath 2 1 = some st :=
    ⟨_, rfl⟩
  rw [misWeight_formula sq1 cexCameraPath cexEmitterPath 2 1 st hst]
  norm_num [LightPath.misArrays, PathVertex.evalPdfs, PdfStore.write, PathEdge.make,
    PathEdge.reverse, PathVertex.cosineFactor, PathVertex.pos, cexEmitterPath, cexCameraPath,
    emitV, camV, surfVAt, surfEventX, unitBsdf, unitEmitter, unitCamera, psampleAt, posX,
    exAxis, one3, sq1, Vec3.dot, Vec3.lengthSq, SurfaceScatterEvent.makeWarpedQuery,
    Vec3.sub_def, Vec3.mul_def, Vec3.neg_def, Vec3.divQ_def, Vec3.zero_def,
    Finset.sum_range_succ, Finset.prod_range_succ] at hst ⊢
  subst hst
  norm_num [Function.update]




/-- C1 counterexample: for the concrete five-vertex transport path (all
stored and local pdfs equal to 1, all geometry terms equal to 1), the
admissible decompositions are `(s,t) ∈ {(0,3), (1,2), (2,1)}`; the
`s = 0` call writes through a null pointer (returns no value), and the
values that are returned are `1/3` and `1/3`, whose sum is not 1. -/
theorem misWeight_sum_to_one_cex :
    LightPath.misWeight sq1 cexCameraPath cexEmitterPath 0 3 = none ∧
    LightPath.misWeight sq1 cexCameraPath cexEmitterPath 1 2 = some (1/3) ∧
    LightPath.misWeight sq1 cexCameraPath cexEmitterPath 2 1 = some (1/3) ∧
    (1 : ℚ)/3 + 1/3 ≠ 1 := by
  refine ⟨by decide, ?_, ?_, by norm_num⟩ <;>
    norm_num [LightPath.misWeight, LightPath.misArrays, LightPath.misCore, LightPath.misLoop1,
      LightPath.misLoop2, PathVertex.evalPdfs, PdfStore.write, PathEdge.make, PathEdge.reverse,
      PathVertex.cosineFactor, PathVertex.pos, cexEmitterPath, cexCameraPath, emitV, camV,
      surfVAt, surfEventX, unitBsdf, unitEmitter, unitCamera, psampleAt, posX, exAxis, one3,
      sq1, Vec3.dot, Vec3.lengthSq, SurfaceScatterEvent.makeWarpedQuery, Function.update,
      Vec3.sub_def, Vec3.mul_def, Vec3.neg_def, Vec3.divQ_def, Vec3.zero_def]

/-- C1 (amended) witness: for the all-ones pdf arrays and a five-vertex
path, the three core weights are each `1/3` and sum to 1. -/
theorem misCore_balance_witness :
    ∑ s ∈ Finset.Icc 1 (5 - 2), LightPath.misCore (fun _ => 1) (fun _ => 1) s (5 - 2 - s) = 1 :=
  misCore_balance (fun _ => 1) (fun _ => 1) 5 (by norm_num)
    (fun _ _ _ => one_pos) (fun _ _ _ => one_pos)

/-- C3 witness: a concrete successful pass through the shared tail. -/
theorem scatterTail_extends_path_witness :
    (PathVertex.scatterTail sq1 hitScene cexTracer (surfVAt 0) blankV cexState 1
      blankV blankE).success = true :=
  ((scatterTail_extends_path sq1 hitScene cexTracer (surfVAt 0) blankV cexState 1
    blankV blankE).2 ⟨0⟩ ⟨posX 1, exAxis, unitBsdf⟩ _ rfl rfl).1

/-- C4 witness: an unoccluded concrete connection evaluates to the full
throughput product (here the unit color). -/
theorem connect_occlusion_and_throughput_witness :
    LightPath.connect sq1 emptyScene emitV (surfVAt 1) = one3 := by
  rw [(connect_occlusion_and_throughput sq1 emptyScene emitV (surfVAt 1)).2 rfl]
  norm_num [PathVertex.eval, PathVertex.pos, PathEdge.make, emitV, surfVAt, surfEventX,
    unitBsdf, unitEmitter, psampleAt, posX, exAxis, one3, sq1, Vec3.dot, Vec3.lengthSq,
    SurfaceScatterEvent.makeWarpedQuery, Vec3.sub_def, Vec3.mul_def, Vec3.neg_def,
    Vec3.divQ_def, Vec3.zero_def]

/-- C6 witness: a failing `scatter` (volume vertex) leaves the
out-parameters and the rest of the frame untouched. -/
theorem scatter_failure_frame_witness :
    (PathVertex.scatter sq1 emptyScene cexTracer blankV (surfVAt 3) blankE cexState
        (surfVAt 2) blankE).next = surfVAt 2 ∧
    (PathVertex.scatter sq1 emptyScene cexTracer blankV (surfVAt 3) blankE cexState
        (surfVAt 2) blankE).nextEdge = blankE ∧
    (PathVertex.scatter sq1 emptyScene cexTracer blankV (surfVAt 3) blankE cexState
        (surfVAt 2) blankE).prev =
      { surfVAt 3 with pdfBackward :=
          (PathVertex.scatter sq1 emptyScene cexTracer blankV (surfVAt 3) blankE cexState
            (surfVAt 2) blankE).prev.pdfBackward } ∧
    (PathVertex.scatter sq1 emptyScene cexTracer blankV (surfVAt 3) blankE cexState
        (surfVAt 2) blankE).state.bounce = cexState.bounce :=
  scatter_failure_frame sq1 emptyScene cexTracer blankV (surfVAt 3) blankE cexState
    (surfVAt 2) blankE rfl

/-- C7 witness: an occluded splat connection reports no contribution. -/
theorem connectSplat_failure_modes_witness :
    (LightPath.connectSplat sq1 occludeScene camV (surfVAt 1) 0 one3 (0, 0)).1 = false :=
  (connectSplat_failure_modes sq1 occludeScene camV (surfVAt 1) 0 one3 (0, 0) unitCamera
    ⟨(0, 0), psampleAt 4, ⟨⟨-1, 0, 0⟩, one3, 1⟩⟩ rfl).1 rfl

/-- C9 witness: the committed vertex of a concrete successful tail pass
carries a self-referencing scatter event. -/
theorem scatterTail_info_rehomed_witness :
    ∃ b r, (PathVertex.scatterTail sq1 hitScene cexTracer (surfVAt 0) blankV cexState 2
        blankV blankE).next.record = .surface b r ∧
      r.event.info = InfoPtr.ownRecord :=
  scatterTail_info_rehomed sq1 hitScene cexTracer (surfVAt 0) blankV cexState 2
    blankV blankE ⟨0⟩ ⟨posX 1, exAxis, unitBsdf⟩ rfl

/-- C10 witness: a concrete `misWeight` call with `s = t = 1` produces a
value. -/
theorem misWeight_null_pointer_witness :
    (LightPath.misWeight sq1 cexCameraPath cexEmitterPath 1 1).isSome = true :=
  (misWeight_null_pointer sq1 cexCameraPath cexEmitterPath 1 1).1 (le_refl 1) (le_refl 1)


end Tungsten
